import Mathlib

/-!
Verification of the trap-dispatch / interrupt-coordination / recovery core
of the substrix kernel, as a shallow embedding in Lean 4.

Each definition below is a direct translation of a Rust function from the
repository sources (`src/debug.rs`, `src/trap.rs`, `src/interrupt.rs`,
`src/timer.rs`, `src/arch/riscv64/timer.rs`).  Machine integers are
modelled as `Nat` with explicit `% 2 ^ w` where wrap-around can occur;
volatile device-register reads whose value is not determined by program
state (the verification re-reads of MSIP and MTIMECMP) are supplied by an
explicit read-back oracle; volatile writes are recorded in an explicit
write trace so that frame conditions can be stated.
-/

set_option autoImplicit false

/-! ## Recovery/Panic subsystem (`src/debug.rs`) -/

/-- `RecoveryOption` from `src/debug.rs`. -/
inductive RecoveryOption where
  | Halt
  | SoftReset
  | SafeMode
  | ContinueUnsafe
deriving DecidableEq, Repr

/-- The failure-kind strings matched by `decide_recovery_action`. -/
def kindMemoryCorruption : String := "memory_corruption"

def kindStackOverflow : String := "stack_overflow"

def kindTrapError : String := "trap_error"

def kindAssertionFailure : String := "assertion_failure"

/-- `decide_recovery_action` from `src/debug.rs` (lines 488-515).
The `severity` argument is the Rust `u8`, embedded as `Nat`; the function
only compares it, so the embedding is exact.  Console output performed by
the Rust function does not affect the returned decision and is omitted. -/
def decide_recovery_action (error_type : String) (severity : Nat) : RecoveryOption :=
  if error_type = kindMemoryCorruption then
    if severity ≥ 8 then RecoveryOption.SoftReset
    else if severity ≥ 5 then RecoveryOption.SafeMode
    else RecoveryOption.ContinueUnsafe
  else if error_type = kindStackOverflow then RecoveryOption.SoftReset
  else if error_type = kindTrapError then RecoveryOption.SafeMode
  else if error_type = kindAssertionFailure then
    if severity ≥ 7 then RecoveryOption.Halt
    else RecoveryOption.SafeMode
  else RecoveryOption.Halt

/-! ## Trap-cause decoder (`src/trap.rs`) -/

/-- `TrapCause` from `src/trap.rs`.  The decoder has exactly these four
variants; in particular there is no `ExternalInterrupt` variant. -/
inductive TrapCause where
  | SoftwareInterrupt
  | TimerInterrupt
  | Ecall
  | Other (code : Nat)
deriving DecidableEq, Repr

/-- `TrapCause::from_mcause` from `src/trap.rs` (lines 42-58).
`mcause` is the Rust `usize` (64-bit) cause-register value, embedded as a
`Nat` below `2 ^ 64`.  Note that both `Other` arms carry the *full*
`mcause` value, not the low 63 bits. -/
def TrapCause.from_mcause (mcause : Nat) : TrapCause :=
  let exception_code := mcause &&& 0x7FFFFFFFFFFFFFFF
  if mcause >>> 63 ≠ 0 then
    if exception_code = 3 then TrapCause.SoftwareInterrupt
    else if exception_code = 7 then TrapCause.TimerInterrupt
    else TrapCause.Other mcause
  else
    if exception_code = 11 then TrapCause.Ecall
    else TrapCause.Other mcause

/-! ## Theorems for claims C1 and C2 -/

/-- C1: `decide_recovery_action` reproduces the spec's decision table
exactly: `memory_corruption` maps to `SoftReset` for severity ≥ 8, to
`SafeMode` for severity 5-7, and to `ContinueUnsafe` for severity < 5;
`stack_overflow` always maps to `SoftReset`; `trap_error` always maps to
`SafeMode`; `assertion_failure` maps to `Halt` for severity ≥ 7 and to
`SafeMode` for severity < 7; every unrecognized kind maps to `Halt`.
Proved for every `Nat` severity, hence in particular for 0-10. -/
theorem recovery_decision_table (severity : Nat) :
    (8 ≤ severity → decide_recovery_action kindMemoryCorruption severity = RecoveryOption.SoftReset)
  ∧ (5 ≤ severity → severity < 8 →
      decide_recovery_action kindMemoryCorruption severity = RecoveryOption.SafeMode)
  ∧ (severity < 5 →
      decide_recovery_action kindMemoryCorruption severity = RecoveryOption.ContinueUnsafe)
  ∧ decide_recovery_action kindStackOverflow severity = RecoveryOption.SoftReset
  ∧ decide_recovery_action kindTrapError severity = RecoveryOption.SafeMode
  ∧ (7 ≤ severity → decide_recovery_action kindAssertionFailure severity = RecoveryOption.Halt)
  ∧ (severity < 7 → decide_recovery_action kindAssertionFailure severity = RecoveryOption.SafeMode)
  ∧ (∀ kind : String, kind ≠ kindMemoryCorruption → kind ≠ kindStackOverflow →
      kind ≠ kindTrapError → kind ≠ kindAssertionFailure →
      decide_recovery_action kind severity = RecoveryOption.Halt) := by
  unfold decide_recovery_action
  refine ⟨?_, ?_, ?_, ?_, ?_, ?_, ?_, ?_⟩
  · intro h
    rw [if_pos rfl, if_pos (by omega)]
  · intro h1 h2
    rw [if_pos rfl, if_neg (by omega), if_pos (by omega)]
  · intro h
    rw [if_pos rfl, if_neg (by omega), if_neg (by omega)]
  · rw [if_neg (by decide), if_pos rfl]
  · rw [if_neg (by decide), if_neg (by decide), if_pos rfl]
  · intro h
    rw [if_neg (by decide), if_neg (by decide), if_neg (by decide), if_pos rfl,
      if_pos (by omega)]
  · intro h
    rw [if_neg (by decide), if_neg (by decide), if_neg (by decide), if_pos rfl,
      if_neg (by omega)]
  · intro kind h1 h2 h3 h4
    rw [if_neg h1, if_neg h2, if_neg h3, if_neg h4]

/-- An unrecognized failure-kind string, used for the C1 witness. -/
def kindUnrecognized : String := "unrecognized"

/-- C1 witness: the theorem evaluated at the spec's example rows
("memory_corruption", 9) → SoftReset, ("assertion_failure", 3) → SafeMode,
("unrecognized", 0) → Halt. -/
theorem recovery_decision_table_witness :
    decide_recovery_action kindMemoryCorruption 9 = RecoveryOption.SoftReset
  ∧ decide_recovery_action kindAssertionFailure 3 = RecoveryOption.SafeMode
  ∧ decide_recovery_action kindUnrecognized 0 = RecoveryOption.Halt :=
  ⟨(recovery_decision_table 9).1 (by omega),
   (recovery_decision_table 3).2.2.2.2.2.2.1 (by omega),
   (recovery_decision_table 0).2.2.2.2.2.2.2 kindUnrecognized
     (by decide) (by decide) (by decide) (by decide)⟩

/-- C2 counterexample: the claim says every unmatched cause value decodes
to `Unknown(code)` with `code` equal to the *low 63 bits*, and that
`0x800000000000000B` decodes to a dedicated `ExternalInterrupt` variant.
In the code, `0x8000000000000001` decodes to `Other 0x8000000000000001`
(the full cause value, with the interrupt bit still set), which differs
from `Other 1` (the low 63 bits); and `0x800000000000000B` also falls
into the catch-all `Other` arm — the decoder has no external-interrupt
variant at all. -/
theorem from_mcause_counterexample :
    TrapCause.from_mcause 0x8000000000000001 = TrapCause.Other 0x8000000000000001
  ∧ TrapCause.Other 0x8000000000000001 ≠ TrapCause.Other 1
  ∧ TrapCause.from_mcause 0x800000000000000B = TrapCause.Other 0x800000000000000B := by
  refine ⟨by decide, by decide, by decide⟩

/-- C2 amended: `0x8000000000000003` decodes to `SoftwareInterrupt`,
`0x8000000000000007` to `TimerInterrupt`, `0x000000000000000B` to
`Ecall` (environment call), and every other 64-bit value `m` — including
`0x800000000000000B`, as there is no `ExternalInterrupt` variant — decodes
to `Other m` carrying the full cause value (interrupt bit included), not
the low 63 bits. -/
theorem from_mcause_decode_amended (m : Nat) (hm : m < 2 ^ 64) :
    TrapCause.from_mcause 0x8000000000000003 = TrapCause.SoftwareInterrupt
  ∧ TrapCause.from_mcause 0x8000000000000007 = TrapCause.TimerInterrupt
  ∧ TrapCause.from_mcause 0x000000000000000B = TrapCause.Ecall
  ∧ TrapCause.from_mcause 0x800000000000000B = TrapCause.Other 0x800000000000000B
  ∧ (m ≠ 0x8000000000000003 → m ≠ 0x8000000000000007 → m ≠ 0x000000000000000B →
      TrapCause.from_mcause m = TrapCause.Other m) := by
  refine ⟨by decide, by decide, by decide, by decide, ?_⟩
  intro h3 h7 h11
  have hshift : m >>> 63 = m / 0x8000000000000000 := by
    have h := Nat.shiftRight_eq_div_pow m 63
    norm_num at h
    exact h
  have hland : m &&& 0x7FFFFFFFFFFFFFFF = m % 0x8000000000000000 := by
    have h := Nat.and_pow_two_sub_one_eq_mod m 63
    norm_num at h
    exact h
  simp only [TrapCause.from_mcause, hshift, hland]
  split_ifs <;> first | rfl | (exfalso; omega)

/-- C2 amended witness: the amended theorem applied at `m = 5`, which is
none of the three matched values and decodes to `Other 5`. -/
theorem from_mcause_decode_amended_witness :
    (5 : Nat) < 2 ^ 64 ∧ TrapCause.from_mcause 5 = TrapCause.Other 5 :=
  ⟨by norm_num,
   (from_mcause_decode_amended 5 (by norm_num)).2.2.2.2 (by decide) (by decide) (by decide)⟩

/-! ## Software-interrupt pending-register protocol (`src/interrupt.rs`)

The MSIP device register is volatile: the value returned by each
verification re-read is supplied by an oracle `reads : Nat → Nat`
(`reads i` is the value the hardware returns on the i-th re-read after
the write).  `write_msip_safe` returns the Rust result, the trace of
volatile writes it issued to MSIP, and the number of `MSIP_ERRORS`
increments it performed. -/

/-- Error string for an out-of-domain value (`src/interrupt.rs` line 87). -/
def msgInvalidValue : String := "Invalid MSIP value (must be 0 or 1)"

/-- Error string when a verification re-read observes an out-of-domain
value (`src/interrupt.rs` line 117). -/
def msgReadError : String := "MSIP read error during verification"

/-- Error string after all retries fail (`src/interrupt.rs` line 124). -/
def msgVerifyFailed : String := "MSIP write verification failed after retries"

/-- The verification loop of `write_msip_safe` (`src/interrupt.rs` lines
101-124): up to `fuel` attempts starting at re-read index `i`.  Each
attempt is `read_msip_safe` (valid iff the value is ≤ 1, else one
`MSIP_ERRORS` increment and a read error, to which the caller adds a
second increment); a valid read equal to the target value succeeds, a
valid read different from it retries after a settle delay (pure `nop`s),
and exhausting the attempts yields one `MSIP_ERRORS` increment and the
retry-failure error.  Returns the result and the `MSIP_ERRORS` delta. -/
def msipVerifyFrom (value : Nat) (reads : Nat → Nat) (i : Nat) : Nat → Except String Unit × Nat
  | 0 => (Except.error msgVerifyFailed, 1)
  | fuel + 1 =>
    if reads i ≤ 1 then
      if reads i = value then (Except.ok (), 0)
      else msipVerifyFrom value reads (i + 1) fuel
    else (Except.error msgReadError, 2)

/-- `write_msip_safe` from `src/interrupt.rs` (lines 85-125): rejects
out-of-domain values, performs exactly one volatile write of `value` to
MSIP, then runs the 3-attempt verification loop (which only re-reads).
Result: (Rust result, trace of MSIP writes, `MSIP_ERRORS` delta). -/
def write_msip_safe (value : Nat) (reads : Nat → Nat) : Except String Unit × List Nat × Nat :=
  if value > 1 then (Except.error msgInvalidValue, [], 0)
  else
    let r := msipVerifyFrom value reads 0 3
    (r.1, [value], r.2)

/-- `trigger_software_interrupt` from `src/interrupt.rs` (lines 128-130). -/
def trigger_software_interrupt (reads : Nat → Nat) : Except String Unit × List Nat × Nat :=
  write_msip_safe 1 reads

/-- `clear_software_interrupt` from `src/interrupt.rs` (lines 133-135). -/
def clear_software_interrupt (reads : Nat → Nat) : Except String Unit × List Nat × Nat :=
  write_msip_safe 0 reads

/-- The verification loop succeeds iff some re-read within its attempt
window observes the target value (given in-domain read-backs). -/
theorem msipVerifyFrom_ok_iff (v : Nat) (reads : Nat → Nat) :
    ∀ (fuel i : Nat), (∀ j, i ≤ j → j < i + fuel → reads j ≤ 1) →
      ((msipVerifyFrom v reads i fuel).1 = Except.ok ()
        ↔ ∃ j, i ≤ j ∧ j < i + fuel ∧ reads j = v) := by
  intro fuel
  induction fuel with
  | zero =>
    intro i hr
    simp only [msipVerifyFrom]
    constructor
    · intro h
      simp at h
    · rintro ⟨j, hj1, hj2, _⟩
      omega
  | succ fuel ih =>
    intro i hr
    have hi : reads i ≤ 1 := hr i (by omega) (by omega)
    have estep : msipVerifyFrom v reads i (fuel + 1)
        = if reads i ≤ 1 then
            (if reads i = v then (Except.ok (), 0) else msipVerifyFrom v reads (i + 1) fuel)
          else (Except.error msgReadError, 2) := rfl
    by_cases c : reads i = v
    · rw [estep, if_pos hi, if_pos c]
      exact ⟨fun _ => ⟨i, by omega, by omega, c⟩, fun _ => rfl⟩
    · rw [estep, if_pos hi, if_neg c,
        ih (i + 1) (fun j hj1 hj2 => hr j (by omega) (by omega))]
      constructor
      · rintro ⟨j, hj1, hj2, hj3⟩
        exact ⟨j, by omega, by omega, hj3⟩
      · rintro ⟨j, hj1, hj2, hj3⟩
        by_cases hji : j = i
        · subst hji
          exact absurd hj3 c
        · exact ⟨j, by omega, by omega, hj3⟩

/-- The verification loop fails with the retry-exhaustion error iff no
re-read within its attempt window observes the target value (given
in-domain read-backs). -/
theorem msipVerifyFrom_err_iff (v : Nat) (reads : Nat → Nat) :
    ∀ (fuel i : Nat), (∀ j, i ≤ j → j < i + fuel → reads j ≤ 1) →
      ((msipVerifyFrom v reads i fuel).1 = Except.error msgVerifyFailed
        ↔ ∀ j, i ≤ j → j < i + fuel → reads j ≠ v) := by
  intro fuel
  induction fuel with
  | zero =>
    intro i hr
    simp only [msipVerifyFrom]
    constructor
    · intro _ j hj1 hj2
      omega
    · intro _
      trivial
  | succ fuel ih =>
    intro i hr
    have hi : reads i ≤ 1 := hr i (by omega) (by omega)
    have estep : msipVerifyFrom v reads i (fuel + 1)
        = if reads i ≤ 1 then
            (if reads i = v then (Except.ok (), 0) else msipVerifyFrom v reads (i + 1) fuel)
          else (Except.error msgReadError, 2) := rfl
    by_cases c : reads i = v
    · rw [estep, if_pos hi, if_pos c]
      constructor
      · intro h
        simp at h
      · intro hall
        exact ((hall i (by omega) (by omega)) c).elim
    · rw [estep, if_pos hi, if_neg c,
        ih (i + 1) (fun j hj1 hj2 => hr j (by omega) (by omega))]
      constructor
      · intro hall j hj1 hj2
        by_cases hji : j = i
        · subst hji
          exact c
        · exact hall j (by omega) (by omega)
      · intro hall j hj1 hj2
        exact hall j (by omega) (by omega)

/-- C4: for every in-domain value `v ∈ {0,1}` and every hardware
read-back behaviour with in-domain responses, `write_msip_safe v`
(underlying both `trigger_software_interrupt` = write 1 and
`clear_software_interrupt` = write 0) writes `v` and then verifies by
re-reading with up to 3 attempts: it returns success exactly when some
re-read within the retry bound observes `v`, and returns the
verification-failure (hardware-fault) error exactly when all 3 retries
fail to observe `v` — so `write(v); read() == v` holds at the observing
attempt on every successful call. -/
theorem write_msip_safe_verified (v : Nat) (reads : Nat → Nat) (hv : v ≤ 1)
    (hr : ∀ i, i < 3 → reads i ≤ 1) :
    trigger_software_interrupt reads = write_msip_safe 1 reads
  ∧ clear_software_interrupt reads = write_msip_safe 0 reads
  ∧ ((write_msip_safe v reads).1 = Except.ok () ↔ ∃ i, i < 3 ∧ reads i = v)
  ∧ ((write_msip_safe v reads).1 = Except.error msgVerifyFailed ↔ ∀ i, i < 3 → reads i ≠ v) := by
  have hw : (write_msip_safe v reads).1 = (msipVerifyFrom v reads 0 3).1 := by
    unfold write_msip_safe
    rw [if_neg (by omega)]
  have hr' : ∀ j, 0 ≤ j → j < 0 + 3 → reads j ≤ 1 := fun j _ hj => hr j (by omega)
  refine ⟨rfl, rfl, ?_, ?_⟩
  · rw [hw, msipVerifyFrom_ok_iff v reads 3 0 hr']
    constructor
    · rintro ⟨j, _, hj2, hj3⟩
      exact ⟨j, by omega, hj3⟩
    · rintro ⟨j, hj1, hj2⟩
      exact ⟨j, by omega, by omega, hj2⟩
  · rw [hw, msipVerifyFrom_err_iff v reads 3 0 hr']
    constructor
    · intro hall j hj
      exact hall j (by omega) (by omega)
    · intro hall j _ hj2
      exact hall j (by omega)

/-- Example read-back oracle for the C4 witness: the first re-read
returns 0, later re-reads return 1. -/
def msipReadsExample : Nat → Nat := fun i => if i = 0 then 0 else 1

/-- C4 witness: the theorem applied at `v = 1` with the example oracle,
whose second re-read observes the written value. -/
theorem write_msip_safe_verified_witness :
    (1 : Nat) ≤ 1 ∧ (∀ i, i < 3 → msipReadsExample i ≤ 1)
  ∧ (trigger_software_interrupt msipReadsExample = write_msip_safe 1 msipReadsExample
  ∧ clear_software_interrupt msipReadsExample = write_msip_safe 0 msipReadsExample
  ∧ ((write_msip_safe 1 msipReadsExample).1 = Except.ok ()
      ↔ ∃ i, i < 3 ∧ msipReadsExample i = 1)
  ∧ ((write_msip_safe 1 msipReadsExample).1 = Except.error msgVerifyFailed
      ↔ ∀ i, i < 3 → msipReadsExample i ≠ 1)) :=
  ⟨by decide, by decide,
   write_msip_safe_verified 1 msipReadsExample (by decide) (by decide)⟩

/-- C9: for every hardware read-back response, `trigger_software_interrupt`
and `clear_software_interrupt` perform exactly one volatile write to the
MSIP pending register (the trace of writes is the single written value);
the retry loop only re-reads and never issues a second write. -/
theorem msip_exactly_one_write (reads : Nat → Nat) :
    (trigger_software_interrupt reads).2.1 = [1]
  ∧ (clear_software_interrupt reads).2.1 = [0] :=
  ⟨rfl, rfl⟩

/-! ## Machine state for the dispatcher and timer (`src/trap.rs`,
`src/timer.rs`, `src/arch/riscv64/timer.rs`)

`KState` collects the mutable machine state these functions touch: the
`mepc` CSR, the CLINT MSIP word and MTIME/MTIMECMP registers, the UART
byte stream (each written byte appended), the `interrupt.rs` statistics
(`SW_INTERRUPT_COUNT`, `YIELD_COUNT`, `HANDLER_CALLS`, `MSIP_ERRORS`),
the `arch/riscv64/timer.rs` statistics (`TIMER_STATS`), and the legacy
`timer.rs` statics (`TICKS`, `TIMER_INTERRUPT_COUNT`,
`LAST_MTIMECMP_VALUE`).  All registers and counters are 64-bit. -/

/-- `RiscvError` from `src/arch/riscv64.rs` (lines 58-70). -/
inductive RiscvError where
  | InvalidCsrAccess
  | InvalidAddress
  | InvalidPrivilege
  | HardwareFault
deriving DecidableEq, Repr

/-- The machine state acted on by the trap dispatcher and the timer. -/
structure KState where
  mepc : Nat
  msip : Nat
  mtime : Nat
  mtimecmp : Nat
  uart : List Nat
  swInterruptCount : Nat
  yieldCount : Nat
  handlerCalls : Nat
  msipErrors : Nat
  timerStatsInterrupts : Nat
  timerStatsAlarmsSet : Nat
  timerStatsErrors : Nat
  ticks : Nat
  timerInterruptCount : Nat
  lastMtimecmpValue : Nat
deriving DecidableEq, Repr

/-- The hex-digit byte computation used by the UART debug output
(`b'0' + x` for `x < 10`, `b'a' + (x - 10)` otherwise). -/
def hex_digit_byte (x : Nat) : Nat :=
  if x < 10 then 48 + x else 97 + (x - 10)

namespace riscv64_timer

/-- `TIMER_FREQ` from `src/arch/riscv64/timer.rs` (10 MHz). -/
def TIMER_FREQ : Nat := 10000000

/-- `ClintTimer::ticks_to_ms` from `src/arch/riscv64/timer.rs`
(lines 185-187): floored integer division. -/
def ticks_to_ms (ticks : Nat) : Nat :=
  ticks / (TIMER_FREQ / 1000)

/-- `ClintTimer::ms_to_ticks` from `src/arch/riscv64/timer.rs`
(lines 190-192): 64-bit multiplication, wrapping. -/
def ms_to_ticks (ms : Nat) : Nat :=
  (ms * (TIMER_FREQ / 1000)) % 2 ^ 64

/-- `ClintTimer::set_alarm` from `src/arch/riscv64/timer.rs`
(lines 151-163): one volatile write of `when` to MTIMECMP, then one
verifying re-read whose returned value is the oracle `cmpReadback`.
On match it records an alarm-set statistic and succeeds; on mismatch it
records an error statistic and fails with `HardwareFault`. -/
def set_alarm (when cmpReadback : Nat) (s : KState) : KState × Except RiscvError Unit :=
  let s1 := { s with mtimecmp := when % 2 ^ 64 }
  if cmpReadback = when then
    ({ s1 with timerStatsAlarmsSet := (s1.timerStatsAlarmsSet + 1) % 2 ^ 64 }, Except.ok ())
  else
    ({ s1 with timerStatsErrors := (s1.timerStatsErrors + 1) % 2 ^ 64 },
      Except.error RiscvError.HardwareFault)

/-- The `if let Err(_) = ... { TIMER_STATS.record_error() }` statement in
`handle_timer_interrupt` (`src/arch/riscv64/timer.rs` lines 266-270). -/
def record_error_if_err (r : Except RiscvError Unit) (s : KState) : KState :=
  match r with
  | Except.ok _ => s
  | Except.error _ => { s with timerStatsErrors := (s.timerStatsErrors + 1) % 2 ^ 64 }

/-- `handle_timer_interrupt` from `src/arch/riscv64/timer.rs`
(lines 257-290): record the interrupt, rearm MTIMECMP to
`now() + TIMER_FREQ * 10` via `set_alarm` (recording a further error on
failure), then emit the `TK<digit>\n` UART marker. -/
def handle_timer_interrupt (cmpReadback : Nat) (s : KState) : KState :=
  let s1 := { s with timerStatsInterrupts := (s.timerStatsInterrupts + 1) % 2 ^ 64 }
  let current_time := s1.mtime
  let next_interrupt := (current_time + TIMER_FREQ * 10) % 2 ^ 64
  let p := set_alarm next_interrupt cmpReadback s1
  let s3 := record_error_if_err p.2 p.1
  let tick_low := s3.timerStatsInterrupts &&& 0xF
  { s3 with uart := s3.uart ++ [84, 75, hex_digit_byte tick_low, 10] }

end riscv64_timer

namespace timer

/-- `TIMER_FREQ` from `src/timer.rs` (10 MHz). -/
def TIMER_FREQ : Nat := 10000000

/-- `write_mtimecmp` from `src/timer.rs` (lines 73-78): volatile write to
MTIMECMP, also recording `LAST_MTIMECMP_VALUE`. -/
def write_mtimecmp (value : Nat) (s : KState) : KState :=
  { s with mtimecmp := value % 2 ^ 64, lastMtimecmpValue := value % 2 ^ 64 }

/-- `handle_timer_interrupt` from `src/timer.rs` (lines 86-116):
increment `TIMER_INTERRUPT_COUNT` and `TICKS`, rearm MTIMECMP to
`read_mtime() + TIMER_FREQ * 10` with a plain (unverified) write, then
emit the `TK<digit>\n` UART marker (the `TICKS % 1 == 0` guard is always
true and is kept as in the source). -/
def handle_timer_interrupt (s : KState) : KState :=
  let s1 := { s with timerInterruptCount := (s.timerInterruptCount + 1) % 2 ^ 64,
                     ticks := (s.ticks + 1) % 2 ^ 64 }
  let current_time := s1.mtime
  let next_interrupt := (current_time + TIMER_FREQ * 10) % 2 ^ 64
  let s2 := write_mtimecmp next_interrupt s1
  if s2.ticks % 1 = 0 then
    let tick_low := s2.ticks &&& 0xF
    { s2 with uart := s2.uart ++ [84, 75, hex_digit_byte tick_low, 10] }
  else s2

end timer

/-- `rust_trap_handler` from `src/trap.rs` (lines 62-189).  `mcause` is
the cause-register value read on entry; `cmpReadback` is the oracle value
for the MTIMECMP verification re-read inside the timer path (unused on
the other paths).  UART bytes are the source's ASCII markers. -/
def rust_trap_handler (mcause cmpReadback : Nat) (s : KState) : KState :=
  let mepc := s.mepc
  match TrapCause.from_mcause mcause with
  | TrapCause.SoftwareInterrupt =>
    let s1 := { s with uart := s.uart ++ [91, 83, 87, 93] }
    let s2 := { s1 with msip := 0 }
    { s2 with uart := s2.uart ++ [83, 10] }
  | TrapCause.TimerInterrupt =>
    let s1 := { s with uart := s.uart ++ [91, 84, 73, 77, 93] }
    let s2 := riscv64_timer.handle_timer_interrupt cmpReadback s1
    { s2 with uart := s2.uart ++ [84, 10] }
  | TrapCause.Ecall =>
    let s1 := { s with mepc := (mepc + 4) % 2 ^ 64 }
    { s1 with uart := s1.uart ++ [69, 10] }
  | TrapCause.Other _ =>
    let exception_code := mcause &&& 0x7FFFFFFFFFFFFFFF
    let dbg :=
      if mcause >>> 63 ≠ 0 then
        [63, 73, hex_digit_byte ((exception_code >>> 4) &&& 0xF),
          hex_digit_byte (exception_code &&& 0xF)]
      else
        [63, 69, hex_digit_byte (exception_code &&& 0xF)]
    let s1 := { s with uart := s.uart ++ dbg ++ [64, hex_digit_byte ((mepc >>> 4) &&& 0xF), 10] }
    if mcause >>> 63 ≠ 0 ∧ exception_code = 3 then
      let s2 := { s1 with uart := s1.uart ++ [91, 69, 77, 69, 82, 71, 93] }
      let s3 := { s2 with msip := 0 }
      { s3 with uart := s3.uart ++ [83, 10] }
    else s1

/-! ## Helper lemmas for the timer and dispatcher theorems -/

/-- `record_error_if_err` leaves MTIMECMP unchanged. -/
@[simp] theorem record_error_if_err_mtimecmp (r : Except RiscvError Unit) (s : KState) :
    (riscv64_timer.record_error_if_err r s).mtimecmp = s.mtimecmp := by
  cases r <;> rfl

/-- `record_error_if_err` leaves the interrupt statistic unchanged. -/
@[simp] theorem record_error_if_err_timerStatsInterrupts
    (r : Except RiscvError Unit) (s : KState) :
    (riscv64_timer.record_error_if_err r s).timerStatsInterrupts = s.timerStatsInterrupts := by
  cases r <;> rfl

/-- `set_alarm` always leaves MTIMECMP holding the written value (the
write happens before, and regardless of, the verification). -/
@[simp] theorem set_alarm_fst_mtimecmp (w rb : Nat) (s : KState) :
    (riscv64_timer.set_alarm w rb s).1.mtimecmp = w % 2 ^ 64 := by
  unfold riscv64_timer.set_alarm
  split_ifs <;> rfl

/-- `set_alarm` leaves the interrupt statistic unchanged. -/
@[simp] theorem set_alarm_fst_timerStatsInterrupts (w rb : Nat) (s : KState) :
    (riscv64_timer.set_alarm w rb s).1.timerStatsInterrupts = s.timerStatsInterrupts := by
  unfold riscv64_timer.set_alarm
  split_ifs <;> rfl

/-- An all-zero machine state, used in concrete witnesses. -/
def kstate0 : KState :=
  { mepc := 0, msip := 0, mtime := 0, mtimecmp := 0, uart := [],
    swInterruptCount := 0, yieldCount := 0, handlerCalls := 0, msipErrors := 0,
    timerStatsInterrupts := 0, timerStatsAlarmsSet := 0, timerStatsErrors := 0,
    ticks := 0, timerInterruptCount := 0, lastMtimecmpValue := 0 }

/-! ## Theorems for claims C5, C6, C7, C8 -/

/-- C5: on every invocation of either timer interrupt handler (the HAL
one in `src/arch/riscv64/timer.rs` dispatched from `trap.rs`, and the
legacy one in `src/timer.rs`), and for every MTIMECMP read-back response,
the tick counter is incremented by exactly 1 and the timer compare
register is unconditionally rewritten to `now() + TIMER_FREQ * 10`
(10 seconds at the fixed 10 MHz clock) before the handler returns. -/
theorem timer_interrupt_tick_and_rearm (s : KState) (rb : Nat)
    (hI : s.timerStatsInterrupts + 1 < 2 ^ 64)
    (hT : s.ticks + 1 < 2 ^ 64)
    (hC : s.timerInterruptCount + 1 < 2 ^ 64)
    (hM : s.mtime + 100000000 < 2 ^ 64) :
    ((riscv64_timer.handle_timer_interrupt rb s).timerStatsInterrupts
        = s.timerStatsInterrupts + 1)
  ∧ ((riscv64_timer.handle_timer_interrupt rb s).mtimecmp
        = s.mtime + riscv64_timer.TIMER_FREQ * 10)
  ∧ ((timer.handle_timer_interrupt s).ticks = s.ticks + 1)
  ∧ ((timer.handle_timer_interrupt s).timerInterruptCount = s.timerInterruptCount + 1)
  ∧ ((timer.handle_timer_interrupt s).mtimecmp = s.mtime + timer.TIMER_FREQ * 10) := by
  have hA : riscv64_timer.TIMER_FREQ * 10 = 100000000 := by
    norm_num [riscv64_timer.TIMER_FREQ]
  have hB : timer.TIMER_FREQ * 10 = 100000000 := by
    norm_num [timer.TIMER_FREQ]
  refine ⟨?_, ?_, ?_, ?_, ?_⟩ <;>
    simp [riscv64_timer.handle_timer_interrupt, timer.handle_timer_interrupt,
      timer.write_mtimecmp, hA, hB, Nat.mod_one] <;>
    omega

/-- C5 witness: the theorem applied to the all-zero state with read-back
value 100000000 (matching the rearm target, so verification succeeds). -/
theorem timer_interrupt_tick_and_rearm_witness :
    (kstate0.timerStatsInterrupts + 1 < 2 ^ 64 ∧ kstate0.ticks + 1 < 2 ^ 64
      ∧ kstate0.timerInterruptCount + 1 < 2 ^ 64 ∧ kstate0.mtime + 100000000 < 2 ^ 64)
  ∧ (((riscv64_timer.handle_timer_interrupt 100000000 kstate0).timerStatsInterrupts
        = kstate0.timerStatsInterrupts + 1)
  ∧ ((riscv64_timer.handle_timer_interrupt 100000000 kstate0).mtimecmp
        = kstate0.mtime + riscv64_timer.TIMER_FREQ * 10)
  ∧ ((timer.handle_timer_interrupt kstate0).ticks = kstate0.ticks + 1)
  ∧ ((timer.handle_timer_interrupt kstate0).timerInterruptCount
        = kstate0.timerInterruptCount + 1)
  ∧ ((timer.handle_timer_interrupt kstate0).mtimecmp
        = kstate0.mtime + timer.TIMER_FREQ * 10)) :=
  ⟨⟨by norm_num [kstate0], by norm_num [kstate0], by norm_num [kstate0],
    by norm_num [kstate0]⟩,
   timer_interrupt_tick_and_rearm kstate0 100000000 (by norm_num [kstate0])
     (by norm_num [kstate0]) (by norm_num [kstate0]) (by norm_num [kstate0])⟩

/-- C6: whenever the decoded trap cause is the environment call, the
dispatcher sets the resuming exception-PC to `P + 4` (the fixed 4-byte
instruction width) before returning, for every exception-PC value `P`
and every read-back oracle. -/
theorem ecall_pc_advance (mcause rb : Nat) (s : KState)
    (hdec : TrapCause.from_mcause mcause = TrapCause.Ecall)
    (hP : s.mepc + 4 < 2 ^ 64) :
    (rust_trap_handler mcause rb s).mepc = s.mepc + 4 := by
  unfold rust_trap_handler
  rw [hdec]
  simp
  omega

/-- C6 witness: the theorem applied at `mcause = 11` (environment call)
and the all-zero state. -/
theorem ecall_pc_advance_witness :
    (TrapCause.from_mcause 11 = TrapCause.Ecall ∧ kstate0.mepc + 4 < 2 ^ 64)
  ∧ (rust_trap_handler 11 0 kstate0).mepc = kstate0.mepc + 4 :=
  ⟨⟨by decide, by norm_num [kstate0]⟩,
   ecall_pc_advance 11 0 kstate0 (by decide) (by norm_num [kstate0])⟩

/-- C7: for every deadline `d`, `set_alarm d` writes `d` to the compare
register (so after a successful arm, reading the compare register yields
`d`), succeeds exactly when the verification re-read equals `d`, and
fails with `HardwareFault` on mismatch. -/
theorem timer_arm_roundtrip (d rb : Nat) (s : KState) (hd : d < 2 ^ 64) :
    (riscv64_timer.set_alarm d rb s).1.mtimecmp = d
  ∧ ((riscv64_timer.set_alarm d rb s).2 = Except.ok () ↔ rb = d)
  ∧ (rb ≠ d →
      (riscv64_timer.set_alarm d rb s).2 = Except.error RiscvError.HardwareFault) := by
  unfold riscv64_timer.set_alarm
  by_cases h : rb = d <;> simp [h] <;> omega

/-- C7 witness: the theorem applied at deadline 42 with a matching
read-back, on the all-zero state. -/
theorem timer_arm_roundtrip_witness :
    (42 : Nat) < 2 ^ 64
  ∧ ((riscv64_timer.set_alarm 42 42 kstate0).1.mtimecmp = 42
  ∧ ((riscv64_timer.set_alarm 42 42 kstate0).2 = Except.ok () ↔ (42 : Nat) = 42)
  ∧ ((42 : Nat) ≠ 42 →
      (riscv64_timer.set_alarm 42 42 kstate0).2 = Except.error RiscvError.HardwareFault)) :=
  ⟨by norm_num, timer_arm_roundtrip 42 42 kstate0 (by norm_num)⟩

/-- C8: with the fixed 10 MHz frequency, `ticks_to_ms t` is
`t / (TIMER_FREQ / 1000)` and `ms_to_ticks ms` is
`ms * (TIMER_FREQ / 1000)` (64-bit, wrapping), both with floored integer
division, and the round trip `ticks_to_ms (ms_to_ticks ms) = ms` is exact
for every `ms` whose tick value does not overflow 64 bits (every integer
`ms` is a multiple of the 0.1 ms conversion granularity). -/
theorem tick_ms_conversion (t ms : Nat)
    (hms : ms * (riscv64_timer.TIMER_FREQ / 1000) < 2 ^ 64) :
    riscv64_timer.ticks_to_ms t = t / (riscv64_timer.TIMER_FREQ / 1000)
  ∧ riscv64_timer.ms_to_ticks ms = ms * (riscv64_timer.TIMER_FREQ / 1000) % 2 ^ 64
  ∧ riscv64_timer.ticks_to_ms (riscv64_timer.ms_to_ticks ms) = ms := by
  refine ⟨rfl, rfl, ?_⟩
  unfold riscv64_timer.ticks_to_ms riscv64_timer.ms_to_ticks
  rw [Nat.mod_eq_of_lt hms]
  have h : riscv64_timer.TIMER_FREQ / 1000 = 10000 := by
    norm_num [riscv64_timer.TIMER_FREQ]
  rw [h]
  omega

/-- C8 witness: the theorem applied at `t = 7`, `ms = 1000`
(1 second = 10,000,000 ticks). -/
theorem tick_ms_conversion_witness :
    1000 * (riscv64_timer.TIMER_FREQ / 1000) < 2 ^ 64
  ∧ (riscv64_timer.ticks_to_ms 7 = 7 / (riscv64_timer.TIMER_FREQ / 1000)
  ∧ riscv64_timer.ms_to_ticks 1000 = 1000 * (riscv64_timer.TIMER_FREQ / 1000) % 2 ^ 64
  ∧ riscv64_timer.ticks_to_ms (riscv64_timer.ms_to_ticks 1000) = 1000) :=
  ⟨by norm_num [riscv64_timer.TIMER_FREQ],
   tick_ms_conversion 7 1000 (by norm_num [riscv64_timer.TIMER_FREQ])⟩

/-! ## Theorem for claim C3 -/

/-- The failing input for C3: pending register holding 1 when the
software-interrupt trap is dispatched. -/
def trapState0 : KState := { kstate0 with msip := 1, mepc := 0x80000010 }

/-- C3 (code-bug evidence): dispatching the software-interrupt cause
pattern `0x8000000000000003` while the pending register holds 1 clears
the pending register to 0 before returning (so the trap does not
re-fire), but the handler-invocations statistic `HANDLER_CALLS` is *not*
incremented: `rust_trap_handler` clears MSIP directly and never calls
`interrupt.rs::handle_software_interrupt`, contradicting the claim (and
that function's own doc comment). -/
theorem software_interrupt_dispatch_statistics :
    trapState0.msip = 1
  ∧ (rust_trap_handler 0x8000000000000003 0 trapState0).msip = 0
  ∧ (rust_trap_handler 0x8000000000000003 0 trapState0).handlerCalls
      = trapState0.handlerCalls := by
  refine ⟨rfl, by decide, by decide⟩

/-! ## Memory guard and checksum (`src/debug.rs`)

Memory contents are modelled as `mem : Nat → Nat`, giving the 32-bit
word a volatile read returns at each address (masked to 32 bits at the
read, as `read_volatile::<u32>` does). -/

/-- `is_valid_address` from `src/debug.rs` (lines 102-105): inside the
RAM window `0x80000000..0x88000000` and 4-byte aligned. -/
def is_valid_address (addr : Nat) : Bool :=
  decide (0x80000000 ≤ addr ∧ addr < 0x88000000 ∧ addr % 4 = 0)

/-- The `while` loop of `calculate_checksum` (`src/debug.rs` lines
185-191): step through the range in 4-byte strides, adding (with 32-bit
wrap-around) the word at every valid address, skipping invalid ones. -/
def calculate_checksum_loop (mem : Nat → Nat) (e : Nat) (addr sum : Nat) : Nat :=
  if h : addr < e ∧ addr + 4 ≤ e then
    let sum2 := if is_valid_address addr then (sum + mem addr % 2 ^ 32) % 2 ^ 32 else sum
    calculate_checksum_loop mem e (addr + 4) sum2
  else sum
termination_by e - addr
decreasing_by omega

/-- `calculate_checksum` from `src/debug.rs` (lines 181-194). -/
def calculate_checksum (mem : Nat → Nat) (start e : Nat) : Nat :=
  calculate_checksum_loop mem e start 0

/-- `MemoryGuard` from `src/debug.rs` (lines 135-140); the Rust `end`
field is named `end_` because `end` is reserved in Lean. -/
structure MemoryGuard where
  start : Nat
  end_ : Nat
  checksum : Nat
  name : String
deriving DecidableEq, Repr

/-- `MemoryGuard::new` from `src/debug.rs` (lines 144-152): capture the
baseline checksum of the current memory contents. -/
def MemoryGuard.new (start e : Nat) (name : String) (mem : Nat → Nat) : MemoryGuard :=
  { start := start, end_ := e, checksum := calculate_checksum mem start e, name := name }

/-- `MemoryGuard::check` from `src/debug.rs` (lines 155-158): recompute
over the current memory contents and compare with the baseline. -/
def MemoryGuard.check (g : MemoryGuard) (mem : Nat → Nat) : Bool :=
  calculate_checksum mem g.start g.end_ == g.checksum

/-- If every address from the loop's starting point on is invalid, the
checksum loop returns its accumulator unchanged. -/
theorem calculate_checksum_loop_invalid (mem : Nat → Nat) (e : Nat) :
    ∀ (n addr sum : Nat), e - addr = n →
      (∀ a, addr ≤ a → a < e → is_valid_address a = false) →
      calculate_checksum_loop mem e addr sum = sum := by
  intro n
  induction n using Nat.strong_induction_on with
  | _ n ih =>
    intro addr sum hn h
    unfold calculate_checksum_loop
    split_ifs with hc hv
    · have hfalse := h addr (Nat.le_refl _) (by omega)
      rw [hv] at hfalse
      simp at hfalse
    · show calculate_checksum_loop mem e (addr + 4) sum = sum
      exact ih (e - (addr + 4)) (by omega) (addr + 4) sum rfl
        (fun a ha1 ha2 => h a (by omega) ha2)
    · rfl

/-- C10: over an address range containing no valid (4-byte-aligned,
in-RAM-window) address, `calculate_checksum` is 0 for every memory
contents; hence a `MemoryGuard` created over such a range has baseline
checksum 0 and its `check` returns `true` for every memory contents —
corruption in such a range is never detected. -/
theorem checksum_zero_outside_ram (start e : Nat) (name : String) (mem : Nat → Nat)
    (h : ∀ a, a < e → start ≤ a → is_valid_address a = false) :
    calculate_checksum mem start e = 0
  ∧ (MemoryGuard.new start e name mem).checksum = 0
  ∧ ∀ mem2 : Nat → Nat, (MemoryGuard.new start e name mem).check mem2 = true := by
  have key : ∀ m2 : Nat → Nat, calculate_checksum m2 start e = 0 := fun m2 =>
    calculate_checksum_loop_invalid m2 e (e - start) start 0 rfl
      (fun a ha1 ha2 => h a ha2 ha1)
  refine ⟨key mem, ?_, ?_⟩
  · simp [MemoryGuard.new, key mem]
  · intro m2
    simp [MemoryGuard.check, MemoryGuard.new, key m2, key mem]

/-- Example memory contents for the C10 witness: every word reads as the
corruption pattern `0xDEADBEEF`. -/
def memExample : Nat → Nat := fun _ => 0xDEADBEEF

/-- Name string for the C10 witness guard. -/
def guardNameExample : String := "demo"

/-- C10 witness: the theorem applied to the range `0..8`, which contains
no address inside the RAM window; even all-`0xDEADBEEF` memory passes
`check`. -/
theorem checksum_zero_outside_ram_witness :
    (∀ a, a < 8 → 0 ≤ a → is_valid_address a = false)
  ∧ (calculate_checksum memExample 0 8 = 0
  ∧ (MemoryGuard.new 0 8 guardNameExample memExample).checksum = 0
  ∧ ∀ mem2 : Nat → Nat, (MemoryGuard.new 0 8 guardNameExample memExample).check mem2 = true) :=
  ⟨by decide,
   checksum_zero_outside_ram 0 8 guardNameExample memExample (by decide)⟩
